import Mathlib

/-!
# Verification of the Emergency Skill Share dispatch engine

A shallow embedding of the server core of the single-file Node app
(`rankHelpers`, `dispatchEmergency`, and the socket event handlers
`hello`, `status:availability`, `location:update`, `emergency:post`,
`emergency:accept`, `emergency:cancel`, `emergency:resolved`,
`disconnect`).

Modelling conventions:
* JS `Map` objects (`connections`, `emergencies`, `lastEmergencyAtByIP`)
  become association lists in insertion order, with `mapGet` / `mapSet` /
  `mapDelete` mirroring `Map.get` / `Map.set` / `Map.delete`.
* JS `Set<string>` becomes a duplicate-free list in insertion order with
  `setAdd` mirroring `Set.add` and `new Set(array)` as a fold of `setAdd`.
* JS numbers carrying coordinates, distances and ratings become `ℚ`;
  timestamps become `ℤ` (so `now() - lastAt` is exact JS subtraction).
* The floating-point haversine (`haversineKm`: trigonometry over IEEE
  doubles) has no exact rational embedding, so the matching core is
  parameterised by the distance function `dist`; every lifecycle and
  ranking theorem below holds for an arbitrary `dist`, hence in
  particular for the haversine.  Concrete scenario states instantiate
  `dist` with `flatDistKm`, a rational surrogate that, like the
  haversine, returns `0` on identical coordinates.
* Each handler is a pure function from the server state (plus the event
  payload, the caller's socket id, and where the code calls `now()` or
  `uid`, an explicit timestamp / fresh id) to the new state, the value
  passed to the `ack` callback, and the list of `io.to(..).emit(..)`
  messages in emission order.
-/

namespace EmergencySkillShare

-- Rational arithmetic is `@[irreducible]` in the ambient library, which
-- blocks `decide` on the concrete scenario states below; restore the
-- default reducibility for this file (soundness is unaffected: the kernel
-- ignores reducibility annotations).
set_option allowUnsafeReducibility true

attribute [local semireducible] Rat.add Rat.sub Rat.mul Rat.inv

/-- Association-list analogue of JS `Map.prototype.get`. -/
def mapGet (m : List (String × α)) (k : String) : Option α :=
  match m with
  | [] => none
  | (k2, v) :: rest => if k2 = k then some v else mapGet rest k

/-- Association-list analogue of JS `Map.prototype.set`: replaces in place
when the key is present (keeping insertion order), otherwise appends. -/
def mapSet (k : String) (v : α) : List (String × α) → List (String × α)
  | [] => [(k, v)]
  | (k2, v2) :: rest => if k2 = k then (k, v) :: rest else (k2, v2) :: mapSet k v rest

/-- Association-list analogue of JS `Map.prototype.delete`. -/
def mapDelete (k : String) : List (String × α) → List (String × α)
  | [] => []
  | (k2, v2) :: rest => if k2 = k then rest else (k2, v2) :: mapDelete k rest

/-- Analogue of JS `Set.prototype.add` on a duplicate-free list. -/
def setAdd (x : String) (s : List String) : List String :=
  if x ∈ s then s else s ++ [x]

/-- JS `new Set(array)` for an array of strings. -/
def setOfList (l : List String) : List String :=
  l.foldl (fun acc x => setAdd x acc) []

inductive Role where
  | seeker
  | helper
deriving DecidableEq, Repr

/-- The `location` field of a connection entry: `{ lat, lng, updatedAt }`. -/
structure Loc where
  lat : ℚ
  lng : ℚ
  updatedAt : ℤ
deriving DecidableEq, Repr

/-- A value of the `connections` map (one per live socket). -/
structure Conn where
  id : String
  role : Role
  name : String
  skills : List String
  location : Option Loc
  available : Bool
  rating : ℚ
deriving DecidableEq, Repr

inductive Status where
  | pending
  | dispatched
  | accepted
  | cancelled
  | resolved
deriving DecidableEq, Repr

/-- The `assignedHelper` field: `{ socketId, name }`. -/
structure AssignedHelper where
  socketId : String
  name : String
deriving DecidableEq, Repr

/-- A value of the `emergencies` map. -/
structure Emergency where
  id : String
  seekerSocketId : String
  requiredSkill : String
  lat : ℚ
  lng : ℚ
  note : String
  createdAt : ℤ
  status : Status
  assignedHelper : Option AssignedHelper
  responders : List String
deriving DecidableEq, Repr

/-- The three module-level mutable stores of the server. -/
structure ServerState where
  connections : List (String × Conn)
  emergencies : List (String × Emergency)
  lastEmergencyAtByIP : List (String × ℤ)
deriving DecidableEq, Repr

/-- One `io.to(sid).emit(event, payload)` call, by event name. -/
inductive Msg where
  | dispatch (toSid : String) (emergencyId : String) (requiredSkill : String)
      (lat : ℚ) (lng : ℚ) (distanceKm : ℚ) (note : String) (createdAt : ℤ)
  | dispatchSummary (toSid : String) (emergencyId : String) (pinged : Nat)
  | accepted (toSid : String) (emergencyId : String) (helperId : String) (helperName : String)
  | taken (toSid : String) (emergencyId : String)
  | cancelled (toSid : String) (emergencyId : String)
  | resolvedMsg (toSid : String) (emergencyId : String)
deriving DecidableEq, Repr

/-- The value passed to an event's `ack` callback. -/
inductive Ack where
  /-- JS `{ ok: true, id }` or `{ ok: true, emergencyId }`. -/
  | okId (id : String)
  /-- JS `{ ok: true }`. -/
  | ok
  /-- JS `{ ok: false, error }`. -/
  | err (e : String)
  /-- JS `{ ok: false }` with no error field. -/
  | fail
deriving DecidableEq, Repr

def POST_COOLDOWN_MS : ℤ := 5000

def SEARCH_RADIUS_KM : ℚ := 5

def MAX_PARALLEL_DISPATCH : Nat := 3

/-- A `dist` argument standing for the floating-point `haversineKm`. -/
abbrev DistFn := ℚ → ℚ → ℚ → ℚ → ℚ

/-- Rational stand-in distance used for concrete scenario states; agrees
with the haversine on identical coordinates (both give `0`). -/
def flatDistKm (lat1 lng1 lat2 lng2 : ℚ) : ℚ :=
  111 * (|lat1 - lat2| + |lng1 - lng2|)

/-- An element pushed onto `candidates` inside `rankHelpers`. -/
structure Candidate where
  sid : String
  c : Conn
  d : ℚ
deriving DecidableEq, Repr

/-- The filter body of the `for` loop of `rankHelpers`: the candidate (with
its computed distance) for one `connections` entry, or `none` when one of
the `continue` guards fires or the distance exceeds the radius. -/
def candidateOf (dist : DistFn) (requiredSkill : String) (lat lng : ℚ)
    (sid : String) (c : Conn) : Option Candidate :=
  if c.role ≠ Role.helper then none
  else if c.available = false then none
  else
    match c.location with
    | none => none
    | some loc =>
      if requiredSkill ∉ c.skills then none
      else
        let d := dist lat lng loc.lat loc.lng
        if d ≤ SEARCH_RADIUS_KM then some ⟨sid, c, d⟩ else none

/-- JS `a.c.location?.updatedAt ?? 0`. -/
def updOf (a : Candidate) : ℤ :=
  match a.c.location with
  | some loc => loc.updatedAt
  | none => 0

/-- Boolean "may come before" relation induced by the `candidates.sort`
comparator: distance ascending, then rating descending, then location
update timestamp descending. -/
def candLE (a b : Candidate) : Bool :=
  if a.d ≠ b.d then decide (a.d < b.d)
  else if a.c.rating ≠ b.c.rating then decide (b.c.rating < a.c.rating)
  else decide (updOf b ≤ updOf a)

/-- Insert a candidate into a sorted list, before the first element it is
strictly below (keeping it after equal elements already present). -/
def orderedInsert (a : Candidate) : List Candidate → List Candidate
  | [] => [a]
  | b :: l => if candLE a b then a :: b :: l else b :: orderedInsert a l

/-- Stable sort by the `candidates.sort` comparator.  ES2019 `Array#sort`
is required to be stable, and for the consistent comparator above every
stable sorting algorithm produces the same output, so a stable insertion
sort is a faithful model of the call. -/
def sortCands : List Candidate → List Candidate
  | [] => []
  | a :: l => orderedInsert a (sortCands l)

/-- Source `rankHelpers({ requiredSkill, lat, lng })`: filter the `connections`
map, sort by the comparator, cap at 25. -/
def rankHelpers (dist : DistFn) (connections : List (String × Conn))
    (requiredSkill : String) (lat lng : ℚ) : List Candidate :=
  let candidates := connections.filterMap
    (fun p => candidateOf dist requiredSkill lat lng p.1 p.2)
  (sortCands candidates).take 25

/-- JS `Number(d.toFixed(2))`: the distance is reported rounded to two decimal
places (ties away from zero; distances are nonnegative). -/
def round2 (q : ℚ) : ℚ :=
  (⌊q * 100 + 1 / 2⌋ : ℚ) / 100

/-- Source `dispatchEmergency(em)`: rank, take the top `max(1, MAX_PARALLEL_DISPATCH)`,
record them in `responders`, notify each target, move to `dispatched` when at
least one target exists, and always send the seeker a summary. -/
def dispatchEmergency (dist : DistFn) (connections : List (String × Conn))
    (em : Emergency) : Emergency × List Msg :=
  let ranked := rankHelpers dist connections em.requiredSkill em.lat em.lng
  let targets := ranked.take (max 1 MAX_PARALLEL_DISPATCH)
  let em1 : Emergency :=
    { em with responders := targets.foldl (fun r t => setAdd t.sid r) em.responders }
  let dispatchMsgs := targets.map (fun t =>
    Msg.dispatch t.sid em.id em.requiredSkill em.lat em.lng (round2 t.d) em.note em.createdAt)
  let em2 : Emergency :=
    if targets.length > 0 then { em1 with status := Status.dispatched } else em1
  (em2, dispatchMsgs ++ [Msg.dispatchSummary em.seekerSocketId em.id targets.length])

/-- JS `String.prototype.toLowerCase`, character by character (the code
only ever compares ASCII skill tags, where JS and ASCII lowering agree). -/
def jsToLower (s : String) : String :=
  ⟨s.data.map Char.toLower⟩

/-- JS `String.prototype.trim`: strip leading and trailing whitespace. -/
def jsTrim (s : String) : String :=
  ⟨((s.data.dropWhile Char.isWhitespace).reverse.dropWhile Char.isWhitespace).reverse⟩

/-- Payload of the `hello` event.  `none` stands for an absent field (or,
for `name`, a non-string; for `skills`, a non-array; for `rating`, a value
whose JS `Number(..)` coercion is `NaN`). -/
structure HelloPayload where
  role : Option String
  name : Option String
  skills : Option (List String)
  rating : Option ℚ
deriving DecidableEq, Repr

/-- The `connections` entry built by the `hello` handler. -/
def helloEntry (socketId : String) (p : HelloPayload) : Conn :=
  { id := socketId
    role := if p.role = some "helper" then Role.helper else Role.seeker
    name := match p.name with
      | some s => if jsTrim s ≠ "" then jsTrim s else "Guest"
      | none => "Guest"
    skills := setOfList ((p.skills.getD []).map jsToLower)
    location := none
    available := true
    -- `Number(rating) || 4.5`: `NaN` (modelled as `none`) and `0` both fall
    -- back to the default.
    rating := match p.rating with
      | some q => if q ≠ 0 then q else 4.5
      | none => 4.5 }

/-- Handler `socket.on('hello', ...)`: always replaces the entry and acks ok. -/
def helloHandler (s : ServerState) (socketId : String) (p : HelloPayload) :
    ServerState × Ack × List Msg :=
  ({ s with connections := mapSet socketId (helloEntry socketId p) s.connections },
   Ack.okId socketId, [])

/-- Handler `socket.on('status:availability', ...)`: `avail` is `!!data?.available`. -/
def setAvailability (s : ServerState) (socketId : String) (avail : Bool) : ServerState :=
  match mapGet s.connections socketId with
  | none => s
  | some c =>
    { s with connections := mapSet socketId { c with available := avail } s.connections }

/-- Handler `socket.on('location:update', ...)`: `none` in `lat`/`lng` stands for a
missing or non-number field (the `typeof` check fails). -/
def locationUpdate (s : ServerState) (socketId : String)
    (lat lng : Option ℚ) (nowT : ℤ) : ServerState :=
  match mapGet s.connections socketId with
  | none => s
  | some c =>
    match lat, lng with
    | some la, some ln =>
      { s with connections :=
          mapSet socketId { c with location := some ⟨la, ln, nowT⟩ } s.connections }
    | _, _ => s

/-- JS `payload?.location || {}` of `emergency:post`; `none` in a coordinate
stands for a missing or non-number field. -/
structure LocPayload where
  lat : Option ℚ
  lng : Option ℚ
deriving DecidableEq, Repr

/-- Payload of the `emergency:post` event.  `requiredSkill = none` stands
for an absent or falsy field (`String(payload?.requiredSkill || '')`), and
likewise for `note`. -/
structure PostPayload where
  requiredSkill : Option String
  note : Option String
  location : Option LocPayload
deriving DecidableEq, Repr

/-- Handler `socket.on('emergency:post', ...)`.  `ip` is `socket.handshake.address
|| 'unknown'`, `nowT` the value of `now()` during this event, and `newId`
the fresh id returned by `uid('em_')`. -/
def postEmergency (dist : DistFn) (s : ServerState) (socketId ip : String)
    (nowT : ℤ) (newId : String) (p : PostPayload) : ServerState × Ack × List Msg :=
  match mapGet s.connections socketId with
  | none => (s, Ack.err "not_connected", [])
  | some c =>
    if c.role ≠ Role.seeker then (s, Ack.err "not_seeker", [])
    else
      let lastAt := (mapGet s.lastEmergencyAtByIP ip).getD 0
      if nowT - lastAt < POST_COOLDOWN_MS then (s, Ack.err "too_many_requests", [])
      else
        -- the cooldown stamp is written before skill/location validation
        let s1 : ServerState :=
          { s with lastEmergencyAtByIP := mapSet ip nowT s.lastEmergencyAtByIP }
        let requiredSkill := jsTrim (jsToLower (p.requiredSkill.getD ""))
        let note := p.note.getD ""
        if requiredSkill = "" then (s1, Ack.err "missing_skill", [])
        else
          match p.location.getD ⟨none, none⟩ with
          | ⟨some la, some ln⟩ =>
            let em : Emergency :=
              { id := newId, seekerSocketId := socketId, requiredSkill := requiredSkill
                lat := la, lng := ln, note := note, createdAt := nowT
                status := Status.pending, assignedHelper := none, responders := [] }
            let (em2, msgs) := dispatchEmergency dist s1.connections em
            ({ s1 with emergencies := mapSet newId em2 s1.emergencies },
             Ack.okId newId, msgs)
          | _ => (s1, Ack.err "missing_location", [])

/-- Handler `socket.on('emergency:accept', ...)`. -/
def acceptEmergency (s : ServerState) (socketId emergencyId : String) :
    ServerState × Ack × List Msg :=
  match mapGet s.connections socketId with
  | none => (s, Ack.err "not_helper", [])
  | some c =>
    if c.role ≠ Role.helper then (s, Ack.err "not_helper", [])
    else
      match mapGet s.emergencies emergencyId with
      | none => (s, Ack.err "not_found", [])
      | some em =>
        if em.status = Status.cancelled ∨ em.status = Status.resolved then
          (s, Ack.err "closed", [])
        else if em.assignedHelper.isSome then (s, Ack.err "taken", [])
        else
          let em2 : Emergency :=
            { em with assignedHelper := some ⟨socketId, c.name⟩, status := Status.accepted }
          let msgs :=
            Msg.accepted em.seekerSocketId em.id socketId c.name ::
              (em.responders.filter (fun sid => sid ≠ socketId)).map
                (fun sid => Msg.taken sid em.id)
          ({ s with
              connections := mapSet socketId { c with available := false } s.connections
              emergencies := mapSet emergencyId em2 s.emergencies },
           Ack.ok, msgs)

/-- Handler `socket.on('emergency:cancel', ...)`.  The stray `io.to(emergencyId)`
in the source evaluates a room handle and emits nothing, so it has no
model.  Note: no terminal-status guard, and `assignedHelper` is kept. -/
def cancelEmergency (s : ServerState) (socketId emergencyId : String) :
    ServerState × Ack × List Msg :=
  match mapGet s.connections socketId, mapGet s.emergencies emergencyId with
  | some _, some em =>
    if em.seekerSocketId ≠ socketId then (s, Ack.err "not_owner", [])
    else
      let em2 : Emergency := { em with status := Status.cancelled }
      let msgs :=
        em.responders.map (fun sid => Msg.cancelled sid emergencyId) ++
          (match em.assignedHelper with
           | some ah => [Msg.cancelled ah.socketId emergencyId]
           | none => [])
      ({ s with emergencies := mapSet emergencyId em2 s.emergencies }, Ack.ok, msgs)
  | _, _ => (s, Ack.fail, [])

/-- Handler `socket.on('emergency:resolved', ...)`.  Note: the guard checks only
that the caller is the recorded `assignedHelper`, not the status. -/
def resolveEmergency (s : ServerState) (socketId emergencyId : String) :
    ServerState × Ack × List Msg :=
  match mapGet s.connections socketId, mapGet s.emergencies emergencyId with
  | some c, some em =>
    if em.assignedHelper.map (fun ah => ah.socketId) ≠ some socketId then
      (s, Ack.err "not_assigned_helper", [])
    else
      let em2 : Emergency := { em with status := Status.resolved }
      ({ s with
          emergencies := mapSet emergencyId em2 s.emergencies
          connections := mapSet socketId { c with available := true } s.connections },
       Ack.ok, [Msg.resolvedMsg em.seekerSocketId emergencyId])
  | _, _ => (s, Ack.fail, [])

/-- The reopen condition of the `disconnect` handler for one emergency:
`em.assignedHelper?.socketId === socket.id && em.status === 'accepted'`. -/
def reopens (socketId : String) (em : Emergency) : Bool :=
  em.assignedHelper.map (fun ah => ah.socketId) = some socketId &&
    em.status = Status.accepted

/-- Handler `socket.on('disconnect', ...)`: reopen and re-dispatch every accepted
emergency assigned to this socket, then delete the connection entry.  The
loop reads `connections` (still containing the leaver) and writes only the
emergency at hand, so it is a pointwise map over `emergencies`. -/
def disconnectHandler (dist : DistFn) (s : ServerState) (socketId : String) :
    ServerState × List Msg :=
  match mapGet s.connections socketId with
  | none => (s, [])
  | some _ =>
    let step := fun (em : Emergency) =>
      if reopens socketId em then
        (dispatchEmergency dist s.connections
          { em with assignedHelper := none, status := Status.pending }).1
      else em
    let msgsOf := fun (em : Emergency) =>
      if reopens socketId em then
        (dispatchEmergency dist s.connections
          { em with assignedHelper := none, status := Status.pending }).2
      else []
    ({ s with
        emergencies := s.emergencies.map (fun p => (p.1, step p.2))
        connections := mapDelete socketId s.connections },
     s.emergencies.flatMap (fun p => msgsOf p.2))

/-- A sequence of `emergency:accept` events for one emergency: the final
state and each caller's ack, in order. -/
def runAccepts (s : ServerState) (emergencyId : String) :
    List String → ServerState × List (String × Ack)
  | [] => (s, [])
  | caller :: rest =>
    let (s1, ack, _) := acceptEmergency s caller emergencyId
    let (s2, acks) := runAccepts s1 emergencyId rest
    (s2, (caller, ack) :: acks)

/-! ## Specification predicates -/

/-- The caller-side accept guard: the socket has a registry entry whose
role is `helper`. -/
def isRegHelper (s : ServerState) (id : String) : Bool :=
  match mapGet s.connections id with
  | some c => decide (c.role = Role.helper)
  | none => false

/-- The sort order claimed for `rankHelpers`: distance ascending, then
rating descending, then location-update timestamp descending. -/
def sortKeyLE (a b : Candidate) : Prop :=
  a.d < b.d ∨
    (a.d = b.d ∧
      (b.c.rating < a.c.rating ∨
        (a.c.rating = b.c.rating ∧ updOf b ≤ updOf a)))

/-- Eligibility of a ranked candidate relative to a registry snapshot: it
is an entry of the registry, a helper, available, located, has the
required skill, and its recorded distance is the computed distance and is
within the search radius. -/
def EligibleCand (dist : DistFn) (connections : List (String × Conn))
    (requiredSkill : String) (lat lng : ℚ) (cand : Candidate) : Prop :=
  (cand.sid, cand.c) ∈ connections ∧
  cand.c.role = Role.helper ∧
  cand.c.available = true ∧
  ∃ loc, cand.c.location = some loc ∧
    requiredSkill ∈ cand.c.skills ∧
    cand.d = dist lat lng loc.lat loc.lng ∧
    cand.d ≤ SEARCH_RADIUS_KM

/-- Whether a message is a dispatch notification addressed to `sid`. -/
def isDispatchTo (sid : String) : Msg → Bool
  | Msg.dispatch t _ _ _ _ _ _ _ => decide (t = sid)
  | _ => false

/-- The full creation guard of `emergency:post`: connected seeker, not in
the per-address cooldown window, non-empty normalized skill, numeric
coordinates. -/
def postGuardOK (s : ServerState) (socketId ip : String) (nowT : ℤ)
    (p : PostPayload) : Prop :=
  (∃ c, mapGet s.connections socketId = some c ∧ c.role = Role.seeker) ∧
  ¬(nowT - (mapGet s.lastEmergencyAtByIP ip).getD 0 < POST_COOLDOWN_MS) ∧
  jsTrim (jsToLower (p.requiredSkill.getD "")) ≠ "" ∧
  (∃ la, (p.location.getD ⟨none, none⟩).lat = some la) ∧
  (∃ ln, (p.location.getD ⟨none, none⟩).lng = some ln)

/-! ## Concrete scenario states

A small reachable history, built by running the handlers themselves:
seeker `"S"` and helper `"H"` (skill `bike`, both at `(13, 80)`) connect,
`"S"` posts, `"H"` accepts. -/

def exS0 : ServerState := ⟨[], [], []⟩

def exS1 : ServerState :=
  (helloHandler exS0 "S" ⟨some "seeker", some "Sam", some [], some 5⟩).1

def exS2 : ServerState :=
  (helloHandler exS1 "H" ⟨some "helper", some "Hana", some ["bike"], some 4⟩).1

def exS3 : ServerState := locationUpdate exS2 "H" (some 13) (some 80) 1000

def exPost : ServerState × Ack × List Msg :=
  postEmergency flatDistKm exS3 "S" "ip1" 10000 "em1"
    ⟨some "Bike ", some "flat tyre", some ⟨some 13, some 80⟩⟩

def exS4 : ServerState := exPost.1

def exS5 : ServerState := (acceptEmergency exS4 "H" "em1").1

/-- State `exS5` after the assigned helper resolved `"em1"`. -/
def exResolved : ServerState := (resolveEmergency exS5 "H" "em1").1

/-- State `exS5` after the seeker cancelled `"em1"` (note: `assignedHelper` is
still set to `"H"`). -/
def exCancelled : ServerState := (cancelEmergency exS5 "S" "em1").1

/-- State `exS5` after the assigned helper set itself available again. -/
def exAvailAgain : ServerState := setAvailability exS5 "H" true

/-- Standalone registry for ranking examples: two `bike` helpers in range
(`"A"` at the origin, `"B"` 1.11 km east) and one helper without the
skill. -/
def exConnA : Conn := ⟨"A", Role.helper, "Ann", ["bike"], some ⟨13, 80, 5⟩, true, 5⟩

def exConnB : Conn :=
  ⟨"B", Role.helper, "Bob", ["bike"], some ⟨13, 80 + 1 / 100, 7⟩, true, 3⟩

def exConnC : Conn := ⟨"C", Role.helper, "Cat", ["cook"], some ⟨13, 80, 9⟩, true, 5⟩

def exConns : List (String × Conn) := [("B", exConnB), ("A", exConnA), ("C", exConnC)]

/-- Standalone state for acceptance arbitration: one seeker, two helpers,
one pending unassigned emergency. -/
def exSeekConn : Conn := ⟨"S", Role.seeker, "Sam", [], none, true, 5⟩

def exH1 : Conn := ⟨"H1", Role.helper, "Hel", ["bike"], none, true, 5⟩

def exH2 : Conn := ⟨"H2", Role.helper, "Hal", ["bike"], none, true, 4⟩

def exEm9 : Emergency := ⟨"em9", "S", "bike", 13, 80, "", 10000, Status.pending, none, []⟩

def exAccState : ServerState :=
  ⟨[("S", exSeekConn), ("H1", exH1), ("H2", exH2)], [("em9", exEm9)], []⟩

/-! ## Map and set lemmas -/

theorem mapGet_mapSet_self (k : String) (v : α) (m : List (String × α)) :
    mapGet (mapSet k v m) k = some v := by
  induction m with
  | nil => simp [mapSet, mapGet]
  | cons hd tl ih =>
    obtain ⟨k2, v2⟩ := hd
    by_cases h : k2 = k
    · simp [mapSet, h, mapGet]
    · simp [mapSet, h, mapGet, ih]

theorem mapGet_mapSet_ne (k k2 : String) (h : k2 ≠ k) (v : α)
    (m : List (String × α)) : mapGet (mapSet k v m) k2 = mapGet m k2 := by
  have h2 : ¬(k = k2) := fun e => h e.symm
  induction m with
  | nil => simp [mapSet, mapGet, h2]
  | cons hd tl ih =>
    obtain ⟨k3, v3⟩ := hd
    by_cases h3 : k3 = k
    · subst h3
      simp [mapSet, mapGet, h2]
    · simp [mapSet, h3, mapGet, ih]

theorem mapGet_mapVals (f : α → α) (m : List (String × α)) (k : String) :
    mapGet (m.map (fun p => (p.1, f p.2))) k = (mapGet m k).map f := by
  induction m with
  | nil => simp [mapGet]
  | cons hd tl ih =>
    obtain ⟨k2, v⟩ := hd
    by_cases h : k2 = k
    · simp [mapGet, h]
    · simp [mapGet, h, ih]

theorem mem_setAdd (x y : String) (s : List String) :
    y ∈ setAdd x s ↔ y ∈ s ∨ y = x := by
  unfold setAdd
  by_cases h : x ∈ s
  · simp only [if_pos h]
    constructor
    · exact Or.inl
    · rintro (hy | rfl)
      · exact hy
      · exact h
  · simp [if_neg h]

theorem nodup_setAdd (x : String) (s : List String) (h : s.Nodup) :
    (setAdd x s).Nodup := by
  unfold setAdd
  by_cases hx : x ∈ s
  · simpa [hx]
  · simp [hx, List.nodup_append, h]

theorem mem_foldl_setAdd (f : α → String) (l : List α) (init : List String)
    (y : String) :
    y ∈ l.foldl (fun r t => setAdd (f t) r) init ↔ y ∈ init ∨ y ∈ l.map f := by
  induction l generalizing init with
  | nil => simp
  | cons a t ih =>
    simp only [List.foldl_cons, List.map_cons, List.mem_cons]
    rw [ih, mem_setAdd]
    tauto

theorem nodup_foldl_setAdd (f : α → String) (l : List α) (init : List String)
    (h : init.Nodup) : (l.foldl (fun r t => setAdd (f t) r) init).Nodup := by
  induction l generalizing init with
  | nil => simpa
  | cons a t ih => exact ih _ (nodup_setAdd _ _ h)

theorem mem_setOfList (l : List String) (y : String) :
    y ∈ setOfList l ↔ y ∈ l := by
  have := mem_foldl_setAdd (fun x : String => x) l [] y
  simpa [setOfList] using this

theorem nodup_setOfList (l : List String) : (setOfList l).Nodup := by
  have := nodup_foldl_setAdd (fun x : String => x) l [] List.nodup_nil
  simpa [setOfList] using this

/-! ## Comparator and sort lemmas -/

theorem candLE_iff (a b : Candidate) : candLE a b = true ↔ sortKeyLE a b := by
  unfold candLE sortKeyLE
  by_cases h1 : a.d = b.d
  · rw [if_neg (not_not_intro h1)]
    by_cases h2 : a.c.rating = b.c.rating
    · rw [if_neg (not_not_intro h2), decide_eq_true_eq]
      constructor
      · intro h
        exact Or.inr ⟨h1, Or.inr ⟨h2, h⟩⟩
      · rintro (h | ⟨-, h | ⟨-, h⟩⟩)
        · rw [h1] at h
          exact absurd h (lt_irrefl _)
        · rw [h2] at h
          exact absurd h (lt_irrefl _)
        · exact h
    · rw [if_pos h2, decide_eq_true_eq]
      constructor
      · intro h
        exact Or.inr ⟨h1, Or.inl h⟩
      · rintro (h | ⟨-, h | ⟨h, -⟩⟩)
        · rw [h1] at h
          exact absurd h (lt_irrefl _)
        · exact h
        · exact absurd h h2
  · rw [if_pos h1, decide_eq_true_eq]
    constructor
    · intro h
      exact Or.inl h
    · rintro (h | ⟨h, -⟩)
      · exact h
      · exact absurd h h1

theorem sortKeyLE_total (a b : Candidate) : sortKeyLE a b ∨ sortKeyLE b a := by
  unfold sortKeyLE
  rcases lt_trichotomy a.d b.d with h | h | h
  · exact Or.inl (Or.inl h)
  · rcases lt_trichotomy a.c.rating b.c.rating with h2 | h2 | h2
    · exact Or.inr (Or.inr ⟨h.symm, Or.inl h2⟩)
    · rcases le_total (updOf a) (updOf b) with h3 | h3
      · exact Or.inr (Or.inr ⟨h.symm, Or.inr ⟨h2.symm, h3⟩⟩)
      · exact Or.inl (Or.inr ⟨h, Or.inr ⟨h2, h3⟩⟩)
    · exact Or.inl (Or.inr ⟨h, Or.inl h2⟩)
  · exact Or.inr (Or.inl h)

theorem sortKeyLE_trans (a b c : Candidate) (hab : sortKeyLE a b)
    (hbc : sortKeyLE b c) : sortKeyLE a c := by
  unfold sortKeyLE at *
  rcases hab with h1 | ⟨e1, h1⟩
  · rcases hbc with h2 | ⟨e2, h2⟩
    · exact Or.inl (lt_trans h1 h2)
    · exact Or.inl (e2 ▸ h1)
  · rcases hbc with h2 | ⟨e2, h2⟩
    · exact Or.inl (e1 ▸ h2)
    · refine Or.inr ⟨e1.trans e2, ?_⟩
      rcases h1 with r1 | ⟨er1, u1⟩
      · rcases h2 with r2 | ⟨er2, u2⟩
        · exact Or.inl (lt_trans r2 r1)
        · exact Or.inl (er2 ▸ r1)
      · rcases h2 with r2 | ⟨er2, u2⟩
        · exact Or.inl (er1 ▸ r2)
        · exact Or.inr ⟨er1.trans er2, u2.trans u1⟩

theorem candLE_total (a b : Candidate) : candLE a b = true ∨ candLE b a = true := by
  rw [candLE_iff, candLE_iff]
  exact sortKeyLE_total a b

theorem candLE_trans (a b c : Candidate) (hab : candLE a b = true)
    (hbc : candLE b c = true) : candLE a c = true := by
  rw [candLE_iff] at *
  exact sortKeyLE_trans a b c hab hbc

theorem mem_orderedInsert (a x : Candidate) (l : List Candidate) :
    x ∈ orderedInsert a l ↔ x = a ∨ x ∈ l := by
  induction l with
  | nil => simp [orderedInsert]
  | cons b t ih =>
    unfold orderedInsert
    by_cases h : candLE a b
    · simp [h]
    · simp only [if_neg h, List.mem_cons, ih]
      tauto

theorem perm_orderedInsert (a : Candidate) (l : List Candidate) :
    (orderedInsert a l).Perm (a :: l) := by
  induction l with
  | nil => simp [orderedInsert]
  | cons b t ih =>
    unfold orderedInsert
    by_cases h : candLE a b
    · simp [h]
    · rw [if_neg h]
      exact (ih.cons b).trans (List.Perm.swap a b t)

theorem perm_sortCands (l : List Candidate) : (sortCands l).Perm l := by
  induction l with
  | nil => simp [sortCands]
  | cons a t ih =>
    unfold sortCands
    exact (perm_orderedInsert a (sortCands t)).trans (List.Perm.cons a ih)

theorem pairwise_orderedInsert (a : Candidate) (l : List Candidate)
    (h : l.Pairwise (fun x y => candLE x y = true)) :
    (orderedInsert a l).Pairwise (fun x y => candLE x y = true) := by
  induction l with
  | nil => simp [orderedInsert]
  | cons b t ih =>
    rcases List.pairwise_cons.mp h with ⟨hb, ht⟩
    unfold orderedInsert
    by_cases hab : candLE a b
    · rw [if_pos hab]
      refine List.pairwise_cons.mpr ⟨?_, h⟩
      intro y hy
      rcases List.mem_cons.mp hy with rfl | hyt
      · exact hab
      · exact candLE_trans a b y hab (hb y hyt)
    · rw [if_neg hab]
      refine List.pairwise_cons.mpr ⟨?_, ih ht⟩
      intro y hy
      rcases (mem_orderedInsert a y t).mp hy with hya | hyt
      · rw [hya]
        rcases candLE_total a b with h2 | h2
        · exact absurd h2 hab
        · exact h2
      · exact hb y hyt

theorem pairwise_sortCands (l : List Candidate) :
    (sortCands l).Pairwise (fun x y => candLE x y = true) := by
  induction l with
  | nil => simp [sortCands]
  | cons a t ih => exact pairwise_orderedInsert a (sortCands t) ih

theorem candidateOf_eq_some (dist : DistFn) (skill : String) (lat lng : ℚ)
    (sid : String) (c : Conn) (cand : Candidate) :
    candidateOf dist skill lat lng sid c = some cand ↔
      (cand.sid = sid ∧ cand.c = c ∧ c.role = Role.helper ∧ c.available = true ∧
       ∃ loc, c.location = some loc ∧ skill ∈ c.skills ∧
         cand.d = dist lat lng loc.lat loc.lng ∧ cand.d ≤ SEARCH_RADIUS_KM) := by
  unfold candidateOf
  by_cases h1 : c.role = Role.helper
  · rw [if_neg (not_not_intro h1)]
    by_cases h2 : c.available = true
    · rw [if_neg (by simp [h2])]
      cases hloc : c.location with
      | none => simp [h1]
      | some loc =>
        dsimp only
        by_cases h3 : skill ∈ c.skills
        · rw [if_neg (not_not_intro h3)]
          by_cases h4 : dist lat lng loc.lat loc.lng ≤ SEARCH_RADIUS_KM
          · rw [if_pos h4]
            constructor
            · rintro h
              injection h with h
              subst h
              exact ⟨rfl, rfl, h1, h2, loc, rfl, h3, rfl, h4⟩
            · rintro ⟨hsid, hc, -, -, loc2, hloc2, -, hd, hle⟩
              have : loc2 = loc := by
                injection hloc2 with h
                exact h.symm
              subst this
              cases cand
              simp only at hsid hc hd
              simp [hsid, hc, hd]
          · rw [if_neg h4]
            constructor
            · rintro h
              exact absurd h (by simp)
            · rintro ⟨hsid, hc, -, -, loc2, hloc2, -, hd, hle⟩
              have : loc2 = loc := by
                injection hloc2 with h
                exact h.symm
              subst this
              rw [hd] at hle
              exact absurd hle h4
        · rw [if_pos h3]
          constructor
          · rintro h
            exact absurd h (by simp)
          · rintro ⟨-, -, -, -, loc2, hloc2, hskill, -, -⟩
            exact absurd hskill h3
    · rw [if_pos (by simpa using h2)]
      constructor
      · rintro h
        exact absurd h (by simp)
      · rintro ⟨-, -, -, hav, -⟩
        exact absurd hav h2
  · rw [if_pos h1]
    constructor
    · rintro h
      exact absurd h (by simp)
    · rintro ⟨-, -, hrole, -⟩
      exact absurd hrole h1

theorem rank_mem_eligible (dist : DistFn) (conns : List (String × Conn))
    (skill : String) (lat lng : ℚ) :
    ∀ cand ∈ rankHelpers dist conns skill lat lng,
      EligibleCand dist conns skill lat lng cand := by
  intro cand hc
  have h1 : cand ∈ sortCands (conns.filterMap
      (fun p => candidateOf dist skill lat lng p.1 p.2)) :=
    List.mem_of_mem_take hc
  have h2 := (perm_sortCands _).mem_iff.mp h1
  rcases List.mem_filterMap.mp h2 with ⟨p, hp, heq⟩
  rcases (candidateOf_eq_some dist skill lat lng p.1 p.2 cand).mp heq with
    ⟨hsid, hc2, hrole, hav, loc, hloc, hskill, hd, hle⟩
  refine ⟨?_, hc2 ▸ hrole, hc2 ▸ hav, loc, hc2 ▸ hloc, hc2 ▸ hskill, hd, hle⟩
  have : (cand.sid, cand.c) = p := by
    rw [hsid, hc2]
  rw [this]
  exact hp

/-- Claim C4. For every registry snapshot, `rankHelpers` returns only
helpers that are available, located, hold the required skill, and whose
computed distance is within the search radius (so an out-of-range or
unskilled helper never appears regardless of rating); the output is
pairwise ordered by distance ascending, then rating descending, then
location-update timestamp descending; it is capped at 25 entries; and as
long as the filtered candidate pool fits under the cap, every eligible
helper does appear. -/
theorem rank_filter_sort_cap (dist : DistFn) (conns : List (String × Conn))
    (skill : String) (lat lng : ℚ) :
    (∀ cand ∈ rankHelpers dist conns skill lat lng,
       EligibleCand dist conns skill lat lng cand) ∧
    (rankHelpers dist conns skill lat lng).Pairwise sortKeyLE ∧
    (rankHelpers dist conns skill lat lng).length ≤ 25 ∧
    ((conns.filterMap (fun p => candidateOf dist skill lat lng p.1 p.2)).length ≤ 25 →
      ∀ cand, EligibleCand dist conns skill lat lng cand →
        cand ∈ rankHelpers dist conns skill lat lng) := by
  refine ⟨rank_mem_eligible dist conns skill lat lng, ?_, ?_, ?_⟩
  · have h1 := pairwise_sortCands (conns.filterMap
      (fun p => candidateOf dist skill lat lng p.1 p.2))
    have h2 := h1.sublist (List.take_sublist 25 _)
    exact h2.imp (fun h => (candLE_iff _ _).mp h)
  · exact List.length_take_le 25 _
  · intro hlen cand hel
    rcases hel with ⟨hmem, hrole, hav, loc, hloc, hskill, hd, hle⟩
    have heq : candidateOf dist skill lat lng cand.sid cand.c = some cand :=
      (candidateOf_eq_some dist skill lat lng cand.sid cand.c cand).mpr
        ⟨rfl, rfl, hrole, hav, loc, hloc, hskill, hd, hle⟩
    have h1 : cand ∈ conns.filterMap
        (fun p => candidateOf dist skill lat lng p.1 p.2) :=
      List.mem_filterMap.mpr ⟨(cand.sid, cand.c), hmem, heq⟩
    have h2 := (perm_sortCands _).mem_iff.mpr h1
    have h3 : (sortCands (conns.filterMap
        (fun p => candidateOf dist skill lat lng p.1 p.2))).length ≤ 25 := by
      rw [(perm_sortCands _).length_eq]
      exact hlen
    unfold rankHelpers
    rw [List.take_of_length_le h3]
    exact h2

/-- Witness for `rank_filter_sort_cap` at a concrete registry: helper
`"A"` sits at the origin and is returned eligible; helper `"B"` (1.11 km
away, skill `bike`) is eligible and hence appears in the output. -/
theorem rank_filter_sort_cap_witness :
    EligibleCand flatDistKm exConns "bike" 13 80 ⟨"A", exConnA, 0⟩ ∧
    (⟨"B", exConnB, 111 / 100⟩ : Candidate) ∈
      rankHelpers flatDistKm exConns "bike" 13 80 := by
  constructor
  · exact (rank_filter_sort_cap flatDistKm exConns "bike" 13 80).1
      ⟨"A", exConnA, 0⟩ (by decide)
  · exact (rank_filter_sort_cap flatDistKm exConns "bike" 13 80).2.2.2 (by decide)
      ⟨"B", exConnB, 111 / 100⟩
      ⟨by decide, by decide, by decide, ⟨13, 80 + 1 / 100, 7⟩, by decide, by decide,
        by decide, by decide⟩

theorem dispatchEmergency_eq (dist : DistFn) (conns : List (String × Conn))
    (em : Emergency) :
    dispatchEmergency dist conns em =
      ({ em with
          responders :=
            ((rankHelpers dist conns em.requiredSkill em.lat em.lng).take
                (max 1 MAX_PARALLEL_DISPATCH)).foldl
              (fun r t => setAdd t.sid r) em.responders
          status :=
            if 0 < ((rankHelpers dist conns em.requiredSkill em.lat em.lng).take
                (max 1 MAX_PARALLEL_DISPATCH)).length then
              Status.dispatched
            else em.status },
       ((rankHelpers dist conns em.requiredSkill em.lat em.lng).take
           (max 1 MAX_PARALLEL_DISPATCH)).map
         (fun t => Msg.dispatch t.sid em.id em.requiredSkill em.lat em.lng
           (round2 t.d) em.note em.createdAt) ++
         [Msg.dispatchSummary em.seekerSocketId em.id
           ((rankHelpers dist conns em.requiredSkill em.lat em.lng).take
               (max 1 MAX_PARALLEL_DISPATCH)).length]) := by
  unfold dispatchEmergency
  by_cases h : 0 < ((rankHelpers dist conns em.requiredSkill em.lat em.lng).take
      (max 1 MAX_PARALLEL_DISPATCH)).length
  · simp only [gt_iff_lt, h, if_true]
  · simp only [gt_iff_lt, h, if_false]

/-- Claim C5. The dispatch step targets the top `max 1 MAX_PARALLEL_DISPATCH`
ranked candidates, adds exactly their identities to `responders`, emits a
dispatch notification per target carrying the request id, skill, origin,
rounded computed distance, note and creation time, sets the status to
`dispatched` exactly when at least one ranked candidate exists (leaving it
unchanged otherwise), always ends with a summary to the seeker carrying
the target count, and changes no other request field. -/
theorem dispatch_targets_spec (dist : DistFn) (conns : List (String × Conn))
    (em : Emergency) :
    (dispatchEmergency dist conns em).2 =
      ((rankHelpers dist conns em.requiredSkill em.lat em.lng).take
          (max 1 MAX_PARALLEL_DISPATCH)).map
        (fun t => Msg.dispatch t.sid em.id em.requiredSkill em.lat em.lng
          (round2 t.d) em.note em.createdAt) ++
        [Msg.dispatchSummary em.seekerSocketId em.id
          ((rankHelpers dist conns em.requiredSkill em.lat em.lng).take
              (max 1 MAX_PARALLEL_DISPATCH)).length] ∧
    (∀ x, x ∈ (dispatchEmergency dist conns em).1.responders ↔
      x ∈ em.responders ∨
        x ∈ ((rankHelpers dist conns em.requiredSkill em.lat em.lng).take
            (max 1 MAX_PARALLEL_DISPATCH)).map Candidate.sid) ∧
    (dispatchEmergency dist conns em).1.status =
      (if 0 < ((rankHelpers dist conns em.requiredSkill em.lat em.lng).take
          (max 1 MAX_PARALLEL_DISPATCH)).length then
        Status.dispatched
      else em.status) ∧
    (0 < ((rankHelpers dist conns em.requiredSkill em.lat em.lng).take
        (max 1 MAX_PARALLEL_DISPATCH)).length ↔
      rankHelpers dist conns em.requiredSkill em.lat em.lng ≠ []) ∧
    (dispatchEmergency dist conns em).1.id = em.id ∧
    (dispatchEmergency dist conns em).1.seekerSocketId = em.seekerSocketId ∧
    (dispatchEmergency dist conns em).1.requiredSkill = em.requiredSkill ∧
    (dispatchEmergency dist conns em).1.lat = em.lat ∧
    (dispatchEmergency dist conns em).1.lng = em.lng ∧
    (dispatchEmergency dist conns em).1.note = em.note ∧
    (dispatchEmergency dist conns em).1.createdAt = em.createdAt ∧
    (dispatchEmergency dist conns em).1.assignedHelper = em.assignedHelper := by
  rw [dispatchEmergency_eq]
  refine ⟨rfl, ?_, rfl, ?_, rfl, rfl, rfl, rfl, rfl, rfl, rfl, rfl⟩
  · intro x
    exact mem_foldl_setAdd Candidate.sid _ em.responders x
  · rw [List.length_take]
    have h3 : max 1 MAX_PARALLEL_DISPATCH = 3 := rfl
    rw [h3]
    rw [← List.length_pos]
    omega

/-! ## Case equations for `acceptEmergency` -/

theorem accept_no_conn (s : ServerState) (caller emId : String)
    (hc : mapGet s.connections caller = none) :
    acceptEmergency s caller emId = (s, Ack.err "not_helper", []) := by
  unfold acceptEmergency
  rw [hc]

theorem accept_not_helper (s : ServerState) (caller emId : String) (c : Conn)
    (hc : mapGet s.connections caller = some c) (hrole : c.role ≠ Role.helper) :
    acceptEmergency s caller emId = (s, Ack.err "not_helper", []) := by
  unfold acceptEmergency
  rw [hc]
  dsimp only
  rw [if_pos hrole]

theorem accept_not_found (s : ServerState) (caller emId : String) (c : Conn)
    (hc : mapGet s.connections caller = some c) (hrole : c.role = Role.helper)
    (hem : mapGet s.emergencies emId = none) :
    acceptEmergency s caller emId = (s, Ack.err "not_found", []) := by
  unfold acceptEmergency
  rw [hc]
  dsimp only
  rw [if_neg (not_not_intro hrole), hem]

theorem accept_closed (s : ServerState) (caller emId : String) (c : Conn)
    (em : Emergency) (hc : mapGet s.connections caller = some c)
    (hrole : c.role = Role.helper) (hem : mapGet s.emergencies emId = some em)
    (hterm : em.status = Status.cancelled ∨ em.status = Status.resolved) :
    acceptEmergency s caller emId = (s, Ack.err "closed", []) := by
  unfold acceptEmergency
  rw [hc]
  dsimp only
  rw [if_neg (not_not_intro hrole), hem]
  dsimp only
  rw [if_pos hterm]

theorem accept_taken (s : ServerState) (caller emId : String) (c : Conn)
    (em : Emergency) (hc : mapGet s.connections caller = some c)
    (hrole : c.role = Role.helper) (hem : mapGet s.emergencies emId = some em)
    (hnc : em.status ≠ Status.cancelled) (hnr : em.status ≠ Status.resolved)
    (has : em.assignedHelper.isSome = true) :
    acceptEmergency s caller emId = (s, Ack.err "taken", []) := by
  unfold acceptEmergency
  rw [hc]
  dsimp only
  rw [if_neg (not_not_intro hrole), hem]
  dsimp only
  rw [if_neg (not_or.mpr ⟨hnc, hnr⟩), if_pos has]

theorem accept_success (s : ServerState) (caller emId : String) (c : Conn)
    (em : Emergency) (hc : mapGet s.connections caller = some c)
    (hrole : c.role = Role.helper) (hem : mapGet s.emergencies emId = some em)
    (hnc : em.status ≠ Status.cancelled) (hnr : em.status ≠ Status.resolved)
    (hun : em.assignedHelper = none) :
    acceptEmergency s caller emId =
      ({ s with
          connections := mapSet caller { c with available := false } s.connections
          emergencies := mapSet emId
            { em with assignedHelper := some ⟨caller, c.name⟩
                      status := Status.accepted } s.emergencies },
       Ack.ok,
       Msg.accepted em.seekerSocketId em.id caller c.name ::
         (em.responders.filter (fun sid => sid ≠ caller)).map
           (fun sid => Msg.taken sid em.id)) := by
  unfold acceptEmergency
  rw [hc]
  dsimp only
  rw [if_neg (not_not_intro hrole), hem]
  dsimp only
  rw [if_neg (not_or.mpr ⟨hnc, hnr⟩), if_neg (by simp [hun])]

theorem isRegHelper_eq_true_iff (s : ServerState) (id : String) :
    isRegHelper s id = true ↔
      ∃ c, mapGet s.connections id = some c ∧ c.role = Role.helper := by
  unfold isRegHelper
  cases h : mapGet s.connections id with
  | none => simp
  | some c => simp

theorem accept_not_reg (s : ServerState) (caller emId : String)
    (h : isRegHelper s caller = false) :
    acceptEmergency s caller emId = (s, Ack.err "not_helper", []) := by
  unfold isRegHelper at h
  cases hc : mapGet s.connections caller with
  | none => exact accept_no_conn s caller emId hc
  | some c =>
    rw [hc] at h
    simp only [decide_eq_false_iff_not] at h
    exact accept_not_helper s caller emId c hc h

theorem accept_ok_iff (s : ServerState) (caller emId : String) :
    (acceptEmergency s caller emId).2.1 = Ack.ok ↔
      (isRegHelper s caller = true ∧
       ∃ em, mapGet s.emergencies emId = some em ∧
         em.status ≠ Status.cancelled ∧ em.status ≠ Status.resolved ∧
         em.assignedHelper = none) := by
  cases hreg : isRegHelper s caller with
  | false =>
    rw [accept_not_reg s caller emId hreg]
    simp
  | true =>
    rcases (isRegHelper_eq_true_iff s caller).mp hreg with ⟨c, hc, hrole⟩
    cases hem : mapGet s.emergencies emId with
    | none =>
      rw [accept_not_found s caller emId c hc hrole hem]
      simp [hem]
    | some em =>
      by_cases hterm : em.status = Status.cancelled ∨ em.status = Status.resolved
      · rw [accept_closed s caller emId c em hc hrole hem hterm]
        constructor
        · intro h
          exact absurd h (by simp)
        · rintro ⟨-, em2, hem2, hnc2, hnr2, -⟩
          injection hem2 with hem2
          subst hem2
          rcases hterm with h | h
          · exact absurd h hnc2
          · exact absurd h hnr2
      · rcases not_or.mp hterm with ⟨hnc, hnr⟩
        cases has : em.assignedHelper with
        | some ah =>
          rw [accept_taken s caller emId c em hc hrole hem hnc hnr (by simp [has])]
          constructor
          · intro h
            exact absurd h (by simp)
          · rintro ⟨-, em2, hem2, -, -, hun2⟩
            injection hem2 with hem2
            subst hem2
            rw [has] at hun2
            exact absurd hun2 (by simp)
        | none =>
          rw [accept_success s caller emId c em hc hrole hem hnc hnr has]
          exact ⟨fun _ => ⟨rfl, em, rfl, hnc, hnr, has⟩, fun _ => rfl⟩

theorem accept_fail_frame (s : ServerState) (caller emId : String)
    (h : (acceptEmergency s caller emId).2.1 ≠ Ack.ok) :
    (acceptEmergency s caller emId).1 = s := by
  cases hreg : isRegHelper s caller with
  | false => rw [accept_not_reg s caller emId hreg]
  | true =>
    rcases (isRegHelper_eq_true_iff s caller).mp hreg with ⟨c, hc, hrole⟩
    cases hem : mapGet s.emergencies emId with
    | none => rw [accept_not_found s caller emId c hc hrole hem]
    | some em =>
      by_cases hterm : em.status = Status.cancelled ∨ em.status = Status.resolved
      · rw [accept_closed s caller emId c em hc hrole hem hterm]
      · rcases not_or.mp hterm with ⟨hnc, hnr⟩
        cases has : em.assignedHelper with
        | some ah =>
          rw [accept_taken s caller emId c em hc hrole hem hnc hnr (by simp [has])]
        | none =>
          exfalso
          apply h
          rw [accept_success s caller emId c em hc hrole hem hnc hnr has]

theorem isRegHelper_after_accept (s : ServerState) (caller : String) (c : Conn)
    (em2 : Emergency) (emId : String)
    (hc : mapGet s.connections caller = some c) (id : String) :
    isRegHelper { s with
        connections := mapSet caller { c with available := false } s.connections
        emergencies := mapSet emId em2 s.emergencies } id = isRegHelper s id := by
  unfold isRegHelper
  dsimp only
  by_cases h : id = caller
  · subst h
    rw [mapGet_mapSet_self, hc]
  · rw [mapGet_mapSet_ne caller id h]

theorem accept_assigned_eq (s : ServerState) (caller emId : String)
    (em : Emergency) (hem : mapGet s.emergencies emId = some em)
    (hnc : em.status ≠ Status.cancelled) (hnr : em.status ≠ Status.resolved)
    (has : em.assignedHelper.isSome = true) :
    acceptEmergency s caller emId =
      (s, if isRegHelper s caller = true then Ack.err "taken"
          else Ack.err "not_helper", []) := by
  cases hreg : isRegHelper s caller with
  | false =>
    rw [accept_not_reg s caller emId hreg, if_neg (by simp)]
  | true =>
    rcases (isRegHelper_eq_true_iff s caller).mp hreg with ⟨c, hc, hrole⟩
    rw [accept_taken s caller emId c em hc hrole hem hnc hnr has, if_pos rfl]

theorem runAccepts_assigned (s : ServerState) (emId : String) (em : Emergency)
    (callers : List String) (hem : mapGet s.emergencies emId = some em)
    (hnc : em.status ≠ Status.cancelled) (hnr : em.status ≠ Status.resolved)
    (has : em.assignedHelper.isSome = true) :
    runAccepts s emId callers =
      (s, callers.map (fun id =>
        (id, if isRegHelper s id = true then Ack.err "taken"
             else Ack.err "not_helper"))) := by
  induction callers with
  | nil => rfl
  | cons a t ih =>
    unfold runAccepts
    rw [accept_assigned_eq s a emId em hem hnc hnr has]
    dsimp only
    rw [ih]
    rfl

/-- Claim C1. Acceptance arbitration: a single accept succeeds exactly when
the caller is a registered helper and the request exists, is not terminal,
and is unassigned; a failed accept mutates nothing; and in any sequence of
accept events for one request starting unassigned, the first caller
satisfying the guard becomes the unique `assignedHelper` (status
`accepted`) while every later accept fails without mutating — registered
helpers with `taken`, unregistered callers with `not_helper`. -/
theorem accept_at_most_one_assignment
    (s : ServerState) (emId : String) (em : Emergency)
    (hem : mapGet s.emergencies emId = some em)
    (hnc : em.status ≠ Status.cancelled) (hnr : em.status ≠ Status.resolved)
    (hun : em.assignedHelper = none) :
    (∀ s2 caller eid,
      ((acceptEmergency s2 caller eid).2.1 = Ack.ok ↔
        (isRegHelper s2 caller = true ∧
         ∃ em2, mapGet s2.emergencies eid = some em2 ∧
           em2.status ≠ Status.cancelled ∧ em2.status ≠ Status.resolved ∧
           em2.assignedHelper = none))) ∧
    (∀ s2 caller eid, (acceptEmergency s2 caller eid).2.1 ≠ Ack.ok →
      (acceptEmergency s2 caller eid).1 = s2) ∧
    (∀ pre w post c, (∀ id ∈ pre, isRegHelper s id = false) →
      mapGet s.connections w = some c → c.role = Role.helper →
      mapGet (runAccepts s emId (pre ++ w :: post)).1.emergencies emId =
        some { em with assignedHelper := some ⟨w, c.name⟩
                       status := Status.accepted } ∧
      (runAccepts s emId (pre ++ w :: post)).2 =
        pre.map (fun id => (id, Ack.err "not_helper")) ++
          (w, Ack.ok) ::
            post.map (fun id =>
              (id, if isRegHelper s id = true then Ack.err "taken"
                   else Ack.err "not_helper"))) := by
  refine ⟨accept_ok_iff, accept_fail_frame, ?_⟩
  intro pre w post c hpre hw hwrole
  induction pre with
  | nil =>
    simp only [List.nil_append, List.map_nil]
    unfold runAccepts
    rw [accept_success s w emId c em hw hwrole hem hnc hnr hun]
    dsimp only
    rw [runAccepts_assigned _ emId
      { em with assignedHelper := some ⟨w, c.name⟩, status := Status.accepted }
      post (mapGet_mapSet_self _ _ _) (by simp) (by simp) (by simp)]
    dsimp only
    refine ⟨mapGet_mapSet_self _ _ _, ?_⟩
    congr 1
    exact List.map_congr_left
      (fun id _ => by rw [isRegHelper_after_accept s w c _ emId hw id])
  | cons a pre2 ih =>
    have ha : isRegHelper s a = false := hpre a (List.mem_cons_self a pre2)
    have hpre2 : ∀ id ∈ pre2, isRegHelper s id = false :=
      fun id hid => hpre id (List.mem_cons_of_mem a hid)
    rcases ih hpre2 with ⟨ih1, ih2⟩
    rw [List.cons_append]
    unfold runAccepts
    rw [accept_not_reg s a emId ha]
    dsimp only
    constructor
    · exact ih1
    · rw [ih2, List.map_cons, List.cons_append]

/-- Witness for `accept_at_most_one_assignment`: in the concrete state
with seeker `"S"`, helpers `"H1"`, `"H2"` and unassigned `"em9"`, running
the accept sequence `["S", "H1", "H2"]` assigns `"H1"`, acks `not_helper`
to `"S"` and `taken` to `"H2"`. -/
theorem accept_at_most_one_assignment_witness :
    mapGet (runAccepts exAccState "em9" ["S", "H1", "H2"]).1.emergencies "em9" =
      some { exEm9 with assignedHelper := some ⟨"H1", "Hel"⟩
                        status := Status.accepted } ∧
    (runAccepts exAccState "em9" ["S", "H1", "H2"]).2 =
      [("S", Ack.err "not_helper"), ("H1", Ack.ok), ("H2", Ack.err "taken")] := by
  have h := accept_at_most_one_assignment exAccState "em9" exEm9
    (by decide) (by decide) (by decide) (by decide)
  rcases h.2.2 ["S"] "H1" ["H2"] exH1 (by decide) (by decide) (by decide) with ⟨h1, h2⟩
  constructor
  · exact h1
  · exact h2.trans (by decide)

/-- Claim C2, amended. Once a request is `resolved` or `cancelled`, a
subsequent *accept* leaves the whole state unchanged, emits nothing, and
— when the caller is a registered helper — fails with `closed`.  (The
original claim extended this to cancel and resolve; the counterexample
`terminal_not_immutable_cex` shows those handlers are not guarded by
terminal status.) -/
theorem accept_terminal_closed (s : ServerState) (caller emId : String)
    (em : Emergency) (hem : mapGet s.emergencies emId = some em)
    (hterm : em.status = Status.resolved ∨ em.status = Status.cancelled) :
    (acceptEmergency s caller emId).1 = s ∧
    (acceptEmergency s caller emId).2.2 = [] ∧
    (isRegHelper s caller = true →
      (acceptEmergency s caller emId).2.1 = Ack.err "closed") := by
  have hterm2 : em.status = Status.cancelled ∨ em.status = Status.resolved :=
    hterm.symm
  cases hreg : isRegHelper s caller with
  | false =>
    rw [accept_not_reg s caller emId hreg]
    exact ⟨rfl, rfl, fun h => absurd h (by simp)⟩
  | true =>
    rcases (isRegHelper_eq_true_iff s caller).mp hreg with ⟨c, hc, hrole⟩
    rw [accept_closed s caller emId c em hc hrole hem hterm2]
    exact ⟨rfl, rfl, fun _ => rfl⟩

/-- Witness for `accept_terminal_closed` on the resolved request `"em1"`
of `exResolved`, with the registered helper `"H"` as caller. -/
theorem accept_terminal_closed_witness :
    (acceptEmergency exResolved "H" "em1").1 = exResolved ∧
    (acceptEmergency exResolved "H" "em1").2.2 = [] ∧
    (isRegHelper exResolved "H" = true →
      (acceptEmergency exResolved "H" "em1").2.1 = Ack.err "closed") :=
  accept_terminal_closed exResolved "H" "em1" _ rfl (by decide)

/-- Claim C2, counterexample. With `"em1"` already `resolved`, the
seeker's cancel does not fail with `closed`: it acks ok and rewrites the
status to `cancelled` — so terminal statuses are not immutable. -/
theorem terminal_not_immutable_cex :
    (mapGet exResolved.emergencies "em1").map Emergency.status =
      some Status.resolved ∧
    (cancelEmergency exResolved "S" "em1").2.1 = Ack.ok ∧
    (mapGet (cancelEmergency exResolved "S" "em1").1.emergencies "em1").map
      Emergency.status = some Status.cancelled := by
  decide

/-- Claim C6, amended. `emergency:resolved` succeeds exactly when the
caller is connected, the request exists, and the caller is the recorded
`assignedHelper` — the status is *not* consulted; on success the caller's
availability reverts to true, the status becomes `resolved` and the
seeker is notified; when the caller is connected and the request exists
but the caller is not the recorded assignee, it fails with
`not_assigned_helper` and mutates nothing.  (The original claim required
the request to be in `accepted`; `resolve_guard_cex` refutes that.) -/
theorem resolve_assignee_spec (s : ServerState) (caller emId : String) :
    ((resolveEmergency s caller emId).2.1 = Ack.ok ↔
      (∃ c, mapGet s.connections caller = some c) ∧
      (∃ em, mapGet s.emergencies emId = some em ∧
        em.assignedHelper.map AssignedHelper.socketId = some caller)) ∧
    (∀ c em, mapGet s.connections caller = some c →
      mapGet s.emergencies emId = some em →
      em.assignedHelper.map AssignedHelper.socketId = some caller →
      resolveEmergency s caller emId =
        ({ s with
            emergencies :=
              mapSet emId { em with status := Status.resolved } s.emergencies
            connections :=
              mapSet caller { c with available := true } s.connections },
         Ack.ok, [Msg.resolvedMsg em.seekerSocketId emId])) ∧
    (∀ c em, mapGet s.connections caller = some c →
      mapGet s.emergencies emId = some em →
      em.assignedHelper.map AssignedHelper.socketId ≠ some caller →
      resolveEmergency s caller emId = (s, Ack.err "not_assigned_helper", [])) := by
  unfold resolveEmergency
  cases hc : mapGet s.connections caller with
  | none =>
    refine ⟨?_, ?_, ?_⟩
    · simp
    · intro c em h1 h2 h3
      exact absurd h1 (by simp)
    · intro c em h1 h2 h3
      exact absurd h1 (by simp)
  | some c =>
    cases hem : mapGet s.emergencies emId with
    | none =>
      refine ⟨?_, ?_, ?_⟩
      · simp
      · intro c2 em h1 h2 h3
        exact absurd h2 (by simp)
      · intro c2 em h1 h2 h3
        exact absurd h2 (by simp)
    | some em =>
      dsimp only
      by_cases hass : em.assignedHelper.map AssignedHelper.socketId = some caller
      · rw [if_neg (not_not_intro hass)]
        refine ⟨?_, ?_, ?_⟩
        · exact ⟨fun _ => ⟨⟨c, rfl⟩, em, rfl, hass⟩, fun _ => rfl⟩
        · intro c2 em2 h1 h2 h3
          injection h1 with h1
          injection h2 with h2
          subst h1
          subst h2
          rfl
        · intro c2 em2 h1 h2 h3
          injection h2 with h2
          subst h2
          exact absurd hass h3
      · rw [if_pos hass]
        refine ⟨?_, ?_, ?_⟩
        · constructor
          · intro h
            exact absurd h (by simp)
          · rintro ⟨-, em2, hem2, hass2⟩
            injection hem2 with hem2
            subst hem2
            exact absurd hass2 hass
        · intro c2 em2 h1 h2 h3
          injection h2 with h2
          subst h2
          exact absurd h3 hass
        · intro c2 em2 h1 h2 h3
          rfl

/-- Witness for `resolve_assignee_spec`: in `exS5` the assigned helper
`"H"` resolves `"em1"` successfully. -/
theorem resolve_assignee_spec_witness :
    (resolveEmergency exS5 "H" "em1").2.1 = Ack.ok :=
  (resolve_assignee_spec exS5 "H" "em1").1.mpr ⟨⟨_, rfl⟩, _, rfl, by decide⟩

/-- Claim C6, counterexample. `"em1"` in `exCancelled` is `cancelled`, not
`accepted`, yet the recorded assignee `"H"` can still resolve it: the
claimed `not_assigned_helper` failure does not happen and the request is
mutated to `resolved`. -/
theorem resolve_guard_cex :
    (mapGet exCancelled.emergencies "em1").map Emergency.status =
      some Status.cancelled ∧
    (resolveEmergency exCancelled "H" "em1").2.1 = Ack.ok ∧
    (mapGet (resolveEmergency exCancelled "H" "em1").1.emergencies "em1").map
      Emergency.status = some Status.resolved := by
  decide

theorem reopens_iff (sid : String) (em : Emergency) :
    reopens sid em = true ↔
      (em.assignedHelper.map (fun ah => ah.socketId) = some sid ∧
       em.status = Status.accepted) := by
  unfold reopens
  simp

/-- Claim C7. When a connected party disconnects, every emergency it was
assigned to in status `accepted` is replaced by the result of re-running
the dispatch step on the request with `assignedHelper` cleared and status
reset to `pending`, ranked against the current registry (which still
contains the leaver); every other emergency is left untouched; and the
party's registry entry is removed afterwards. -/
theorem disconnect_reopen_spec (dist : DistFn) (s : ServerState) (sid : String)
    (c : Conn) (hc : mapGet s.connections sid = some c) :
    (∀ eid em, mapGet s.emergencies eid = some em →
      ((em.assignedHelper.map (fun ah => ah.socketId) = some sid ∧
          em.status = Status.accepted) →
        mapGet (disconnectHandler dist s sid).1.emergencies eid =
          some (dispatchEmergency dist s.connections
            { em with assignedHelper := none, status := Status.pending }).1) ∧
      (¬(em.assignedHelper.map (fun ah => ah.socketId) = some sid ∧
          em.status = Status.accepted) →
        mapGet (disconnectHandler dist s sid).1.emergencies eid = some em)) ∧
    (disconnectHandler dist s sid).1.connections = mapDelete sid s.connections := by
  unfold disconnectHandler
  rw [hc]
  dsimp only
  refine ⟨?_, rfl⟩
  intro eid em hem
  rw [mapGet_mapVals (fun em2 =>
    if reopens sid em2 = true then
      (dispatchEmergency dist s.connections
        { em2 with assignedHelper := none, status := Status.pending }).1
    else em2) s.emergencies eid, hem]
  constructor
  · intro h
    have hre : reopens sid em = true := (reopens_iff sid em).mpr h
    simp [hre]
  · intro h
    have hre : reopens sid em = false := by
      cases hval : reopens sid em with
      | false => rfl
      | true => exact absurd ((reopens_iff sid em).mp hval) h
    simp [hre]

/-- Witness for `disconnect_reopen_spec`: disconnecting the assigned
helper `"H"` of `exS5` deletes its registry entry and reopens `"em1"` to
`pending` (no other candidate is in range, so the re-dispatch leaves it
pending). -/
theorem disconnect_reopen_spec_witness :
    (disconnectHandler flatDistKm exS5 "H").1.connections =
      mapDelete "H" exS5.connections ∧
    (mapGet (disconnectHandler flatDistKm exS5 "H").1.emergencies "em1").map
      Emergency.status = some Status.pending := by
  have h := disconnect_reopen_spec flatDistKm exS5 "H" _ rfl
  refine ⟨h.2, ?_⟩
  have h2 := (h.1 "em1" _ rfl).1 (by decide)
  rw [h2]
  decide

theorem mapGet_of_mem_nodup (m : List (String × α))
    (hnd : (m.map Prod.fst).Nodup) (k : String) (v : α)
    (hmem : (k, v) ∈ m) : mapGet m k = some v := by
  induction m with
  | nil => cases hmem
  | cons hd tl ih =>
    obtain ⟨k2, v2⟩ := hd
    rcases List.pairwise_cons.mp hnd with ⟨hk2, htl⟩
    rcases List.mem_cons.mp hmem with heq | hmem2
    · injection heq with h1 h2
      subst h1
      subst h2
      simp [mapGet]
    · have hne : k2 ≠ k := by
        intro h
        subst h
        exact hk2 k2 (List.mem_map.mpr ⟨(k2, v), hmem2, rfl⟩) rfl
      unfold mapGet
      rw [if_neg hne]
      exact ih htl hmem2

/-- Claim C10, amended. If the disconnecting party's registry entry is
still unavailable at disconnect time (as the accept handler left it,
absent an intervening `status:availability` event), the ranker's
availability filter excludes it, so with duplicate-free registry keys no
ranking over the current registry contains it and no dispatch
notification of the re-dispatch run is addressed to it — even though its
registry entry is deleted only after the re-dispatch.  (The original
claim asserted this unconditionally; `disconnect_self_dispatch_cex`
shows an intervening availability reset defeats it.) -/
theorem disconnect_no_self_dispatch (dist : DistFn) (s : ServerState)
    (sid : String) (c : Conn)
    (hnd : (s.connections.map Prod.fst).Nodup)
    (hc : mapGet s.connections sid = some c) (hav : c.available = false) :
    (∀ skill la ln cand, cand ∈ rankHelpers dist s.connections skill la ln →
      cand.sid ≠ sid) ∧
    (∀ m ∈ (disconnectHandler dist s sid).2, isDispatchTo sid m = false) := by
  have hrank : ∀ skill la ln cand,
      cand ∈ rankHelpers dist s.connections skill la ln → cand.sid ≠ sid := by
    intro skill la ln cand hmem heq
    rcases rank_mem_eligible dist s.connections skill la ln cand hmem with
      ⟨hin, -, hava, -⟩
    subst heq
    have := mapGet_of_mem_nodup s.connections hnd cand.sid cand.c hin
    rw [hc] at this
    injection this with this
    rw [this] at hav
    rw [hava] at hav
    cases hav
  refine ⟨hrank, ?_⟩
  intro m hm
  unfold disconnectHandler at hm
  rw [hc] at hm
  dsimp only at hm
  rcases List.mem_flatMap.mp hm with ⟨p, -, hmsg⟩
  by_cases hre : reopens sid p.2
  · rw [if_pos hre] at hmsg
    rw [dispatchEmergency_eq] at hmsg
    dsimp only at hmsg
    rcases List.mem_append.mp hmsg with hdisp | hsum
    · rcases List.mem_map.mp hdisp with ⟨t, ht, rfl⟩
      have htr : t ∈ rankHelpers dist s.connections
          p.2.requiredSkill p.2.lat p.2.lng := List.mem_of_mem_take ht
      have := hrank p.2.requiredSkill p.2.lat p.2.lng t htr
      unfold isDispatchTo
      simp [this]
    · rcases List.mem_singleton.mp hsum with rfl
      rfl
  · rw [if_neg hre] at hmsg
    cases hmsg

/-- Witness for `disconnect_no_self_dispatch` on `exS5` (helper `"H"` is
unavailable after accepting): the summary message the run emits is not a
dispatch to `"H"`. -/
theorem disconnect_no_self_dispatch_witness :
    isDispatchTo "H" (Msg.dispatchSummary "S" "em1" 0) = false :=
  (disconnect_no_self_dispatch flatDistKm exS5 "H" _ (by decide) rfl
    (by decide)).2 _ (by decide)

/-- Claim C10, counterexample. The assigned helper of `"em1"` resets its
availability to true after accepting (state `exAvailAgain`) and then
disconnects: the re-dispatch ranks it again and sends it a dispatch
notification, refuting "the disconnecting helper never appears in the new
candidate list". -/
theorem disconnect_self_dispatch_cex :
    Msg.dispatch "H" "em1" "bike" 13 80 0 "flat tyre" 10000 ∈
      (disconnectHandler flatDistKm exAvailAgain "H").2 ∧
    isDispatchTo "H" (Msg.dispatch "H" "em1" "bike" 13 80 0 "flat tyre" 10000) =
      true := by
  decide

/-! ## Case equations for `postEmergency` -/

theorem post_no_conn (dist : DistFn) (s : ServerState) (socketId ip : String)
    (nowT : ℤ) (newId : String) (p : PostPayload)
    (hc : mapGet s.connections socketId = none) :
    postEmergency dist s socketId ip nowT newId p =
      (s, Ack.err "not_connected", []) := by
  unfold postEmergency
  rw [hc]

theorem post_not_seeker (dist : DistFn) (s : ServerState) (socketId ip : String)
    (nowT : ℤ) (newId : String) (p : PostPayload) (c : Conn)
    (hc : mapGet s.connections socketId = some c)
    (hrole : c.role ≠ Role.seeker) :
    postEmergency dist s socketId ip nowT newId p =
      (s, Ack.err "not_seeker", []) := by
  unfold postEmergency
  rw [hc]
  dsimp only
  rw [if_pos hrole]

theorem post_cooldown (dist : DistFn) (s : ServerState) (socketId ip : String)
    (nowT : ℤ) (newId : String) (p : PostPayload) (c : Conn)
    (hc : mapGet s.connections socketId = some c)
    (hrole : c.role = Role.seeker)
    (hcool : nowT - (mapGet s.lastEmergencyAtByIP ip).getD 0 < POST_COOLDOWN_MS) :
    postEmergency dist s socketId ip nowT newId p =
      (s, Ack.err "too_many_requests", []) := by
  unfold postEmergency
  rw [hc]
  dsimp only
  rw [if_neg (not_not_intro hrole), if_pos hcool]

theorem post_missing_skill (dist : DistFn) (s : ServerState) (socketId ip : String)
    (nowT : ℤ) (newId : String) (p : PostPayload) (c : Conn)
    (hc : mapGet s.connections socketId = some c)
    (hrole : c.role = Role.seeker)
    (hcool : ¬(nowT - (mapGet s.lastEmergencyAtByIP ip).getD 0 < POST_COOLDOWN_MS))
    (hsk : jsTrim (jsToLower (p.requiredSkill.getD "")) = "") :
    postEmergency dist s socketId ip nowT newId p =
      ({ s with lastEmergencyAtByIP := mapSet ip nowT s.lastEmergencyAtByIP },
       Ack.err "missing_skill", []) := by
  unfold postEmergency
  rw [hc]
  dsimp only
  rw [if_neg (not_not_intro hrole), if_neg hcool, if_pos hsk]

theorem post_missing_location (dist : DistFn) (s : ServerState)
    (socketId ip : String) (nowT : ℤ) (newId : String) (p : PostPayload)
    (c : Conn) (hc : mapGet s.connections socketId = some c)
    (hrole : c.role = Role.seeker)
    (hcool : ¬(nowT - (mapGet s.lastEmergencyAtByIP ip).getD 0 < POST_COOLDOWN_MS))
    (hsk : jsTrim (jsToLower (p.requiredSkill.getD "")) ≠ "")
    (hloc : (p.location.getD ⟨none, none⟩).lat = none ∨
      (p.location.getD ⟨none, none⟩).lng = none) :
    postEmergency dist s socketId ip nowT newId p =
      ({ s with lastEmergencyAtByIP := mapSet ip nowT s.lastEmergencyAtByIP },
       Ack.err "missing_location", []) := by
  unfold postEmergency
  rw [hc]
  dsimp only
  rw [if_neg (not_not_intro hrole), if_neg hcool, if_neg hsk]
  rcases hlp : p.location.getD ⟨none, none⟩ with ⟨ola, oln⟩
  rw [hlp] at hloc
  cases ola with
  | none => rfl
  | some la =>
    cases oln with
    | none => rfl
    | some ln =>
      rcases hloc with h | h
      · exact absurd h (by simp)
      · exact absurd h (by simp)

theorem post_success_eq (dist : DistFn) (s : ServerState) (socketId ip : String)
    (nowT : ℤ) (newId : String) (p : PostPayload) (c : Conn) (la ln : ℚ)
    (hc : mapGet s.connections socketId = some c)
    (hrole : c.role = Role.seeker)
    (hcool : ¬(nowT - (mapGet s.lastEmergencyAtByIP ip).getD 0 < POST_COOLDOWN_MS))
    (hsk : jsTrim (jsToLower (p.requiredSkill.getD "")) ≠ "")
    (hla : (p.location.getD ⟨none, none⟩).lat = some la)
    (hln : (p.location.getD ⟨none, none⟩).lng = some ln) :
    postEmergency dist s socketId ip nowT newId p =
      ({ s with
          lastEmergencyAtByIP := mapSet ip nowT s.lastEmergencyAtByIP
          emergencies :=
            mapSet newId
              (dispatchEmergency dist s.connections
                ⟨newId, socketId, jsTrim (jsToLower (p.requiredSkill.getD "")),
                 la, ln, p.note.getD "", nowT, Status.pending, none, []⟩).1
              s.emergencies },
       Ack.okId newId,
       (dispatchEmergency dist s.connections
         ⟨newId, socketId, jsTrim (jsToLower (p.requiredSkill.getD "")),
          la, ln, p.note.getD "", nowT, Status.pending, none, []⟩).2) := by
  unfold postEmergency
  rw [hc]
  dsimp only
  rw [if_neg (not_not_intro hrole), if_neg hcool, if_neg hsk]
  rcases hlp : p.location.getD ⟨none, none⟩ with ⟨ola, oln⟩
  rw [hlp] at hla hln
  simp only at hla hln
  subst hla
  subst hln
  rfl

/-- Claim C3, amended. A post rejected for a missing capability or
missing/non-numeric coordinates creates no request and leaves
`connections` and `emergencies` unchanged and emits nothing, but the
per-address cooldown map has already been stamped with the attempt time
by the rejected call.  (The original claim said no state at all is
mutated, including the cooldown map; `post_reject_stamps_cooldown_cex`
refutes that.) -/
theorem post_reject_frame (dist : DistFn) (s : ServerState)
    (socketId ip : String) (nowT : ℤ) (newId : String) (p : PostPayload)
    (h : (postEmergency dist s socketId ip nowT newId p).2.1 =
        Ack.err "missing_skill" ∨
      (postEmergency dist s socketId ip nowT newId p).2.1 =
        Ack.err "missing_location") :
    (postEmergency dist s socketId ip nowT newId p).1.emergencies =
      s.emergencies ∧
    (postEmergency dist s socketId ip nowT newId p).1.connections =
      s.connections ∧
    (postEmergency dist s socketId ip nowT newId p).2.2 = [] ∧
    (postEmergency dist s socketId ip nowT newId p).1.lastEmergencyAtByIP =
      mapSet ip nowT s.lastEmergencyAtByIP := by
  cases hc : mapGet s.connections socketId with
  | none =>
    rw [post_no_conn dist s socketId ip nowT newId p hc] at h
    rcases h with h | h <;> exact absurd h (by simp)
  | some c =>
    by_cases hrole : c.role = Role.seeker
    · by_cases hcool :
        nowT - (mapGet s.lastEmergencyAtByIP ip).getD 0 < POST_COOLDOWN_MS
      · rw [post_cooldown dist s socketId ip nowT newId p c hc hrole hcool] at h
        rcases h with h | h <;> exact absurd h (by simp)
      · by_cases hsk : jsTrim (jsToLower (p.requiredSkill.getD "")) = ""
        · rw [post_missing_skill dist s socketId ip nowT newId p c hc hrole hcool hsk]
          exact ⟨rfl, rfl, rfl, rfl⟩
        · by_cases hloc : (p.location.getD ⟨none, none⟩).lat = none ∨
            (p.location.getD ⟨none, none⟩).lng = none
          · rw [post_missing_location dist s socketId ip nowT newId p c hc hrole
              hcool hsk hloc]
            exact ⟨rfl, rfl, rfl, rfl⟩
          · rcases not_or.mp hloc with ⟨hla, hln⟩
            rcases Option.ne_none_iff_exists.mp hla with ⟨la, hla2⟩
            rcases Option.ne_none_iff_exists.mp hln with ⟨ln, hln2⟩
            rw [post_success_eq dist s socketId ip nowT newId p c la ln hc hrole
              hcool hsk hla2.symm hln2.symm] at h
            rcases h with h | h <;> exact absurd h (by simp)
    · rw [post_not_seeker dist s socketId ip nowT newId p c hc hrole] at h
      rcases h with h | h <;> exact absurd h (by simp)

/-- Witness for `post_reject_frame`: a post with an empty skill against
`exS3` is rejected without creating a request. -/
theorem post_reject_frame_witness :
    (postEmergency flatDistKm exS3 "S" "ip9" 10000 "em2"
        ⟨none, none, some ⟨some 13, some 80⟩⟩).1.emergencies =
      exS3.emergencies ∧
    (postEmergency flatDistKm exS3 "S" "ip9" 10000 "em2"
        ⟨none, none, some ⟨some 13, some 80⟩⟩).1.connections =
      exS3.connections ∧
    (postEmergency flatDistKm exS3 "S" "ip9" 10000 "em2"
        ⟨none, none, some ⟨some 13, some 80⟩⟩).2.2 = [] ∧
    (postEmergency flatDistKm exS3 "S" "ip9" 10000 "em2"
        ⟨none, none, some ⟨some 13, some 80⟩⟩).1.lastEmergencyAtByIP =
      mapSet "ip9" 10000 exS3.lastEmergencyAtByIP :=
  post_reject_frame flatDistKm exS3 "S" "ip9" 10000 "em2"
    ⟨none, none, some ⟨some 13, some 80⟩⟩ (Or.inl (by decide))

/-- Claim C3, counterexample. The same rejected post (error
`missing_skill`) does mutate engine state: the cooldown entry for its
address goes from absent to the attempt time, so a rejected call is not
state-free. -/
theorem post_reject_stamps_cooldown_cex :
    (postEmergency flatDistKm exS3 "S" "ip9" 10000 "em2"
        ⟨none, none, some ⟨some 13, some 80⟩⟩).2.1 = Ack.err "missing_skill" ∧
    mapGet exS3.lastEmergencyAtByIP "ip9" = none ∧
    mapGet (postEmergency flatDistKm exS3 "S" "ip9" 10000 "em2"
        ⟨none, none, some ⟨some 13, some 80⟩⟩).1.lastEmergencyAtByIP "ip9" =
      some 10000 := by
  decide

theorem post_after_success_cooldown (dist : DistFn) (s : ServerState)
    (socketId ip : String) (nowT nowT2 : ℤ) (newId2 : String) (p2 : PostPayload)
    (c : Conn) (hc : mapGet s.connections socketId = some c)
    (hrole : c.role = Role.seeker)
    (hlast : mapGet s.lastEmergencyAtByIP ip = some nowT)
    (hwin : nowT2 - nowT < POST_COOLDOWN_MS) :
    postEmergency dist s socketId ip nowT2 newId2 p2 =
      (s, Ack.err "too_many_requests", []) := by
  apply post_cooldown dist s socketId ip nowT2 newId2 p2 c hc hrole
  rw [hlast]
  exact hwin

/-- Claim C9. A post creates a request (acked `ok` with the fresh id) iff
the caller is a connected seeker, its address is out of the cooldown
window, the normalized skill is non-empty and both coordinates are
numeric; each failing guard yields its error code
(`not_connected`, `not_seeker`, `too_many_requests`, `missing_skill`,
`missing_location`) and no failing call touches `emergencies`; on success
the stored request is the dispatch result of a fresh `pending` request;
and in particular a second post from the same address within the cooldown
window after a successful one fails with `too_many_requests` and creates
nothing. -/
theorem post_create_guards (dist : DistFn) (s : ServerState)
    (socketId ip : String) (nowT : ℤ) (newId : String) (p : PostPayload) :
    ((postEmergency dist s socketId ip nowT newId p).2.1 = Ack.okId newId ↔
      postGuardOK s socketId ip nowT p) ∧
    (mapGet s.connections socketId = none →
      (postEmergency dist s socketId ip nowT newId p).2.1 =
        Ack.err "not_connected") ∧
    (∀ c, mapGet s.connections socketId = some c → c.role ≠ Role.seeker →
      (postEmergency dist s socketId ip nowT newId p).2.1 =
        Ack.err "not_seeker") ∧
    (∀ c, mapGet s.connections socketId = some c → c.role = Role.seeker →
      nowT - (mapGet s.lastEmergencyAtByIP ip).getD 0 < POST_COOLDOWN_MS →
      (postEmergency dist s socketId ip nowT newId p).2.1 =
        Ack.err "too_many_requests") ∧
    (∀ c, mapGet s.connections socketId = some c → c.role = Role.seeker →
      ¬(nowT - (mapGet s.lastEmergencyAtByIP ip).getD 0 < POST_COOLDOWN_MS) →
      jsTrim (jsToLower (p.requiredSkill.getD "")) = "" →
      (postEmergency dist s socketId ip nowT newId p).2.1 =
        Ack.err "missing_skill") ∧
    (∀ c, mapGet s.connections socketId = some c → c.role = Role.seeker →
      ¬(nowT - (mapGet s.lastEmergencyAtByIP ip).getD 0 < POST_COOLDOWN_MS) →
      jsTrim (jsToLower (p.requiredSkill.getD "")) ≠ "" →
      ((p.location.getD ⟨none, none⟩).lat = none ∨
        (p.location.getD ⟨none, none⟩).lng = none) →
      (postEmergency dist s socketId ip nowT newId p).2.1 =
        Ack.err "missing_location") ∧
    ((postEmergency dist s socketId ip nowT newId p).2.1 ≠ Ack.okId newId →
      (postEmergency dist s socketId ip nowT newId p).1.emergencies =
        s.emergencies) ∧
    (∀ la ln, (p.location.getD ⟨none, none⟩).lat = some la →
      (p.location.getD ⟨none, none⟩).lng = some ln →
      postGuardOK s socketId ip nowT p →
      mapGet (postEmergency dist s socketId ip nowT newId p).1.emergencies
          newId =
        some (dispatchEmergency dist s.connections
          ⟨newId, socketId, jsTrim (jsToLower (p.requiredSkill.getD "")),
           la, ln, p.note.getD "", nowT, Status.pending, none, []⟩).1) ∧
    (∀ nowT2 newId2 p2,
      (postEmergency dist s socketId ip nowT newId p).2.1 = Ack.okId newId →
      nowT2 - nowT < POST_COOLDOWN_MS →
      (postEmergency dist (postEmergency dist s socketId ip nowT newId p).1
          socketId ip nowT2 newId2 p2).2.1 = Ack.err "too_many_requests" ∧
      (postEmergency dist (postEmergency dist s socketId ip nowT newId p).1
          socketId ip nowT2 newId2 p2).1.emergencies =
        (postEmergency dist s socketId ip nowT newId p).1.emergencies) := by
  have hiff : (postEmergency dist s socketId ip nowT newId p).2.1 =
      Ack.okId newId ↔ postGuardOK s socketId ip nowT p := by
    cases hc : mapGet s.connections socketId with
    | none =>
      rw [post_no_conn dist s socketId ip nowT newId p hc]
      constructor
      · intro h
        exact absurd h (by simp)
      · rintro ⟨⟨c, hc2, -⟩, -⟩
        rw [hc] at hc2
        cases hc2
    | some c =>
      by_cases hrole : c.role = Role.seeker
      · by_cases hcool :
          nowT - (mapGet s.lastEmergencyAtByIP ip).getD 0 < POST_COOLDOWN_MS
        · rw [post_cooldown dist s socketId ip nowT newId p c hc hrole hcool]
          constructor
          · intro h
            exact absurd h (by simp)
          · rintro ⟨-, hcool2, -⟩
            exact absurd hcool hcool2
        · by_cases hsk : jsTrim (jsToLower (p.requiredSkill.getD "")) = ""
          · rw [post_missing_skill dist s socketId ip nowT newId p c hc hrole
              hcool hsk]
            constructor
            · intro h
              exact absurd h (by simp)
            · rintro ⟨-, -, hsk2, -⟩
              exact absurd hsk hsk2
          · by_cases hloc : (p.location.getD ⟨none, none⟩).lat = none ∨
              (p.location.getD ⟨none, none⟩).lng = none
            · rw [post_missing_location dist s socketId ip nowT newId p c hc
                hrole hcool hsk hloc]
              constructor
              · intro h
                exact absurd h (by simp)
              · rintro ⟨-, -, -, ⟨la, hla⟩, ⟨ln, hln⟩⟩
                rcases hloc with h | h
                · rw [hla] at h
                  cases h
                · rw [hln] at h
                  cases h
            · rcases not_or.mp hloc with ⟨hla, hln⟩
              rcases Option.ne_none_iff_exists.mp hla with ⟨la, hla2⟩
              rcases Option.ne_none_iff_exists.mp hln with ⟨ln, hln2⟩
              rw [post_success_eq dist s socketId ip nowT newId p c la ln hc
                hrole hcool hsk hla2.symm hln2.symm]
              exact ⟨fun _ => ⟨⟨c, hc, hrole⟩, hcool, hsk, ⟨la, hla2.symm⟩,
                ⟨ln, hln2.symm⟩⟩, fun _ => rfl⟩
      · rw [post_not_seeker dist s socketId ip nowT newId p c hc hrole]
        constructor
        · intro h
          exact absurd h (by simp)
        · rintro ⟨⟨c2, hc2, hrole2⟩, -⟩
          rw [hc] at hc2
          injection hc2 with hc2
          subst hc2
          exact absurd hrole2 hrole
  have hnocreate : (postEmergency dist s socketId ip nowT newId p).2.1 ≠
      Ack.okId newId →
      (postEmergency dist s socketId ip nowT newId p).1.emergencies =
        s.emergencies := by
    intro hne
    cases hc : mapGet s.connections socketId with
    | none => rw [post_no_conn dist s socketId ip nowT newId p hc]
    | some c =>
      by_cases hrole : c.role = Role.seeker
      · by_cases hcool :
          nowT - (mapGet s.lastEmergencyAtByIP ip).getD 0 < POST_COOLDOWN_MS
        · rw [post_cooldown dist s socketId ip nowT newId p c hc hrole hcool]
        · by_cases hsk : jsTrim (jsToLower (p.requiredSkill.getD "")) = ""
          · rw [post_missing_skill dist s socketId ip nowT newId p c hc hrole
              hcool hsk]
          · by_cases hloc : (p.location.getD ⟨none, none⟩).lat = none ∨
              (p.location.getD ⟨none, none⟩).lng = none
            · rw [post_missing_location dist s socketId ip nowT newId p c hc
                hrole hcool hsk hloc]
            · rcases not_or.mp hloc with ⟨hla, hln⟩
              rcases Option.ne_none_iff_exists.mp hla with ⟨la, hla2⟩
              rcases Option.ne_none_iff_exists.mp hln with ⟨ln, hln2⟩
              exfalso
              apply hne
              rw [post_success_eq dist s socketId ip nowT newId p c la ln hc
                hrole hcool hsk hla2.symm hln2.symm]
      · rw [post_not_seeker dist s socketId ip nowT newId p c hc hrole]
  refine ⟨hiff, ?_, ?_, ?_, ?_, ?_, hnocreate, ?_, ?_⟩
  · intro hc
    rw [post_no_conn dist s socketId ip nowT newId p hc]
  · intro c hc hrole
    rw [post_not_seeker dist s socketId ip nowT newId p c hc hrole]
  · intro c hc hrole hcool
    rw [post_cooldown dist s socketId ip nowT newId p c hc hrole hcool]
  · intro c hc hrole hcool hsk
    rw [post_missing_skill dist s socketId ip nowT newId p c hc hrole hcool hsk]
  · intro c hc hrole hcool hsk hloc
    rw [post_missing_location dist s socketId ip nowT newId p c hc hrole hcool
      hsk hloc]
  · intro la ln hla hln hguard
    rcases hguard with ⟨⟨c, hc, hrole⟩, hcool, hsk, -, -⟩
    rw [post_success_eq dist s socketId ip nowT newId p c la ln hc hrole hcool
      hsk hla hln]
    exact mapGet_mapSet_self _ _ _
  · intro nowT2 newId2 p2 hfirst hwin
    rcases hiff.mp hfirst with ⟨⟨c, hc, hrole⟩, hcool, hsk, ⟨la, hla⟩, ⟨ln, hln⟩⟩
    have hsucc := post_success_eq dist s socketId ip nowT newId p c la ln hc
      hrole hcool hsk hla hln
    have hc1 : mapGet (postEmergency dist s socketId ip nowT newId p).1.connections
        socketId = some c := by
      rw [hsucc]
      exact hc
    have hl1 : mapGet (postEmergency dist s socketId ip nowT newId
        p).1.lastEmergencyAtByIP ip = some nowT := by
      rw [hsucc]
      exact mapGet_mapSet_self _ _ _
    have h2 := post_after_success_cooldown dist
      (postEmergency dist s socketId ip nowT newId p).1 socketId ip nowT nowT2
      newId2 p2 c hc1 hrole hl1 hwin
    rw [h2]
    exact ⟨rfl, rfl⟩

/-- Witness for `post_create_guards`: a successful post from `exS3` and a
second attempt 2 seconds later from the same address. -/
theorem post_create_guards_witness :
    (postEmergency flatDistKm
        (postEmergency flatDistKm exS3 "S" "ip1" 10000 "em1"
          ⟨some "Bike ", some "flat tyre", some ⟨some 13, some 80⟩⟩).1
        "S" "ip1" 12000 "em3"
        ⟨some "bike", none, some ⟨some 13, some 80⟩⟩).2.1 =
      Ack.err "too_many_requests" ∧
    (postEmergency flatDistKm
        (postEmergency flatDistKm exS3 "S" "ip1" 10000 "em1"
          ⟨some "Bike ", some "flat tyre", some ⟨some 13, some 80⟩⟩).1
        "S" "ip1" 12000 "em3"
        ⟨some "bike", none, some ⟨some 13, some 80⟩⟩).1.emergencies =
      (postEmergency flatDistKm exS3 "S" "ip1" 10000 "em1"
        ⟨some "Bike ", some "flat tyre", some ⟨some 13, some 80⟩⟩).1.emergencies :=
  (post_create_guards flatDistKm exS3 "S" "ip1" 10000 "em1"
      ⟨some "Bike ", some "flat tyre", some ⟨some 13, some 80⟩⟩).2.2.2.2.2.2.2.2
    12000 "em3" ⟨some "bike", none, some ⟨some 13, some 80⟩⟩
    (by decide) (by decide)

/-- Claim C8, amended. The handshake always succeeds (acking ok with the
socket id) and coerces instead of rejecting: the stored capability set is
exactly the supplied tags lower-cased — *not* trimmed — with duplicates
removed; a missing or blank name becomes the placeholder `"Guest"` (names
are trimmed); a missing or non-numeric rating becomes `4.5`; any role
other than `"helper"` is stored as `seeker`; and the party starts
available with no location.  (The original claim also trimmed the
capability tags; `hello_skills_not_trimmed_cex` refutes that.) -/
theorem hello_coerces_spec (s : ServerState) (socketId : String)
    (p : HelloPayload) :
    (helloHandler s socketId p).2.1 = Ack.okId socketId ∧
    mapGet (helloHandler s socketId p).1.connections socketId =
      some (helloEntry socketId p) ∧
    (helloEntry socketId p).skills.Nodup ∧
    (∀ x, x ∈ (helloEntry socketId p).skills ↔
      ∃ t ∈ p.skills.getD [], jsToLower t = x) ∧
    (∀ nm, p.name = some nm →
      (helloEntry socketId p).name =
        (if jsTrim nm ≠ "" then jsTrim nm else "Guest")) ∧
    (p.name = none → (helloEntry socketId p).name = "Guest") ∧
    (p.rating = none → (helloEntry socketId p).rating = 4.5) ∧
    (helloEntry socketId p).role =
      (if p.role = some "helper" then Role.helper else Role.seeker) ∧
    (helloEntry socketId p).available = true ∧
    (helloEntry socketId p).location = none := by
  refine ⟨rfl, mapGet_mapSet_self _ _ _, nodup_setOfList _, ?_, ?_, ?_, ?_,
    rfl, rfl, rfl⟩
  · intro x
    have h := mem_setOfList ((p.skills.getD []).map jsToLower) x
    rw [show (helloEntry socketId p).skills =
      setOfList ((p.skills.getD []).map jsToLower) from rfl, h, List.mem_map]
  · intro nm hnm
    simp [helloEntry, hnm]
  · intro hnm
    simp [helloEntry, hnm]
  · intro hr
    simp [helloEntry, hr]

/-- Witness for `hello_coerces_spec`: a payload with a blank name, a
duplicated tag in mixed case and a missing rating. -/
theorem hello_coerces_spec_witness :
    (helloEntry "H9" ⟨some "x", some "  ", some [" Bike", " bike"], none⟩).name =
      "Guest" ∧
    (helloEntry "H9" ⟨some "x", some "  ", some [" Bike", " bike"], none⟩).rating =
      4.5 ∧
    (" bike" ∈
      (helloEntry "H9" ⟨some "x", some "  ", some [" Bike", " bike"], none⟩).skills ↔
      ∃ t ∈ [" Bike", " bike"], jsToLower t = " bike") := by
  have h := hello_coerces_spec exS0 "H9"
    ⟨some "x", some "  ", some [" Bike", " bike"], none⟩
  refine ⟨?_, h.2.2.2.2.2.2.1 rfl, h.2.2.2.1 " bike"⟩
  have h2 := h.2.2.2.2.1 "  " rfl
  rw [h2]
  decide

/-- Claim C8, counterexample. The supplied tag `" Bike"` is stored as
`" bike"` — lower-cased but not trimmed: the lower-cased-and-trimmed form
`"bike"` claimed by the spec is absent from the stored set. -/
theorem hello_skills_not_trimmed_cex :
    jsTrim (jsToLower " Bike") = "bike" ∧
    " bike" ∈ (helloEntry "H9" ⟨some "helper", none, some [" Bike"], none⟩).skills ∧
    "bike" ∉ (helloEntry "H9" ⟨some "helper", none, some [" Bike"], none⟩).skills := by
  decide

end EmergencySkillShare
